import Mathlib

/-!
Verification of the population-trends EDA application (`app_eda.py`).

The file shallowly embeds the data-transformation core of the app:

* `REGION_KR2EN` — the module-level Korean-to-English region-name mapping.
* `load_population_df` — the CSV loader: Sejong dash fix-up, numeric
  coercion with `errors="coerce"` + `fillna(0)` + `astype(int)`, and the
  derived `region_en` column.  A raw CSV is modelled after parsing into a
  header plus string-cell rows (`RawTable`); the pandas numeric parse of
  one cell is modelled by `parseNum`, which classifies a cell as
  non-numeric (coerced to `NaN` and thence to 0 by `fillna(0)`), as the
  signed case-insensitive `inf`/`infinity` keywords, or as an optionally
  signed decimal literal with optional fraction and exponent, held as the
  exact value `m · 10^e`.  A finite literal at or beyond the float64
  round-to-infinity boundary `2^1024 − 2^970` is classified as ±infinity,
  since the program's float64 parse saturates there.  `astype(int)`
  truncates finite values toward zero (`decTrunc`) and raises on ±infinity
  (it cannot convert non-finite values), so the loader has a second
  `Except` error branch that fires when any population/births/deaths cell
  is non-finite after the Sejong fix-up.  Per-cell access of a pandas
  column is modelled by `getCell`; a missing column is a `KeyError`,
  modelled by the first error branch (the loader touches only the region
  column and the three numeric columns — never the year column).
  Not modelled, and excluded from every theorem by explicit hypotheses:
  float64 rounding of fractional literals (truncation is taken on the
  exact rational value, which can differ from the program within one unit
  in the last place of float64, e.g. for 17 repeated nines after the
  decimal point) and the int64/float64 precision loss for integer values
  of magnitude `2^53` and above; literal `NaN` spellings and non-ASCII
  numerals coerce to `NaN` in the program and parse as non-numeric here,
  with the same loaded value 0.
* `predict_pop_2035` — the 2035 forecaster (`tail(3)`, truncated mean of
  births − deaths, linear extrapolation).  The Python version raises on an
  empty frame, modelled by `Option`.
* the Aggregator views of `EDA.population_trend_eda`: the 5-year regional
  delta series (`deltaView`, with `drop("전국")` raising a `KeyError`
  when the national row is absent, modelled by `Except`), the top-100
  year-over-year difference table (`top100Diffs`), and the two pivot
  tables (`heatPivot`, `areaPivot`).  Pandas index alignment of the two
  year slices is modelled by taking the union of the region labels, with
  `none` standing for the `NaN` produced where one side is missing; axis
  label order of the pivots (which pandas sorts for display) is kept in
  first-encounter order since no property below depends on it.
-/

set_option maxRecDepth 4000
set_option exponentiation.threshold 1200

namespace PopEDA

/-- The module-level `REGION_KR2EN` dictionary of `app_eda.py`
(18 entries, Korean region name to English display name). -/
def REGION_KR2EN : List (String × String) :=
  [("서울", "Seoul"), ("부산", "Busan"), ("대구", "Daegu"), ("인천", "Incheon"),
   ("광주", "Gwangju"), ("대전", "Daejeon"), ("울산", "Ulsan"), ("세종", "Sejong"),
   ("경기", "Gyeonggi"), ("강원", "Gangwon"), ("충북", "Chungbuk"), ("충남", "Chungnam"),
   ("전북", "Jeonbuk"), ("전남", "Jeonnam"), ("경북", "Gyeongbuk"), ("경남", "Gyeongnam"),
   ("제주", "Jeju"), ("전국", "National")]

/-- A parsed CSV file: the header row and the data rows, each a list of
raw string cells aligned with the header. -/
structure RawTable where
  header : List String
  rows : List (List String)
deriving DecidableEq

/-- `getCell header row c` reads column `c` of one data row, `none` when
the column is absent from the header or the row is short (pandas `NaN`). -/
def getCell (header row : List String) (c : String) : Option String :=
  (header.indexOf? c).bind row.get?

/-- Numeric value of a digit string (most significant first). -/
def digitsVal (cs : List Char) : Nat :=
  cs.foldl (fun n c => 10 * n + (c.toNat - 48)) 0

/-- Outcome of the pandas numeric parse for one cell value: `notNum`
coerces to `NaN` under `errors="coerce"` (then to 0 by `fillna(0)`),
`nan` is a cell that is already `NaN` (a missing value), `posInf` and
`negInf` are the non-finite floats that `astype(int)` refuses, and
`finite m e` is the exact finite value `m · 10^e`. -/
inductive NumParse where
  | notNum
  | nan
  | posInf
  | negInf
  | finite (m e : Int)
deriving DecidableEq

/-- The smallest positive real that float64 round-to-nearest-even sends
to infinity: `2^1024 − 2^970` (one half unit in the last place above the
largest finite float64).  A parsed decimal literal with magnitude at or
beyond it becomes ±infinity in the program. -/
def f64Boundary : Nat := 2 ^ 970 * (2 ^ 54 - 1)

/-- Leading and trailing whitespace stripping performed by the pandas
numeric parser before reading a number. -/
def stripWS (cs : List Char) : List Char :=
  ((cs.dropWhile Char.isWhitespace).reverse.dropWhile Char.isWhitespace).reverse

/-- Exponent part after the `e`/`E` marker: an optionally signed
non-empty digit string, fully consumed. -/
def parseExpDigits (cs : List Char) : Option Int :=
  match cs with
  | '-' :: ds =>
    if ds.isEmpty || !(ds.all Char.isDigit) then none
    else some (-(digitsVal ds : Int))
  | '+' :: ds =>
    if ds.isEmpty || !(ds.all Char.isDigit) then none
    else some ((digitsVal ds : Int))
  | ds =>
    if ds.isEmpty || !(ds.all Char.isDigit) then none
    else some ((digitsVal ds : Int))

/-- Classification of a finite decimal literal `sgn · (digits ds with
`fraclen` of them after the point) · 10^ex` into the float64 regime:
zero stays zero, a magnitude at or beyond `f64Boundary` becomes the
signed infinity (float64 parse overflow), anything smaller keeps its
exact value `m · 10^e`.  The digit count bounds keep every power of ten
that is actually computed proportional to the literal's length. -/
def finishDec (sgn : Int) (ds : List Char) (fraclen : Nat) (ex : Int) : NumParse :=
  let n := digitsVal ds
  if n = 0 then .finite 0 0
  else
    let m := sgn * (n : Int)
    let e := ex - (fraclen : Int)
    if 0 ≤ e then
      if 309 ≤ e then (if sgn < 0 then .negInf else .posInf)
      else if f64Boundary ≤ n * 10 ^ e.toNat then
        (if sgn < 0 then .negInf else .posInf)
      else .finite m e
    else
      let j := (-e).toNat
      if ds.length + 400 ≤ j then .finite 0 0
      else if f64Boundary * 10 ^ j ≤ n then
        (if sgn < 0 then .negInf else .posInf)
      else .finite m e

/-- The pandas numeric parse of one string cell (the parser behind
`pd.read_csv` column inference and `pd.to_numeric`): strip whitespace,
read an optional sign, accept the case-insensitive `inf`/`infinity`
keywords, else an ASCII decimal literal — digits with optional fraction
and optional `e`/`E` exponent, at least one mantissa digit, nothing left
over.  Everything else is non-numeric. -/
def parseNum (s : String) : NumParse :=
  let cs := stripWS s.data
  let sgn : Int := match cs with
    | '-' :: _ => -1
    | _ => 1
  let rest := match cs with
    | '-' :: r => r
    | '+' :: r => r
    | r => r
  let low := rest.map Char.toLower
  if low = ['i', 'n', 'f'] ∨ low = ['i', 'n', 'f', 'i', 'n', 'i', 't', 'y'] then
    (if sgn < 0 then .negInf else .posInf)
  else
    let ip := rest.takeWhile Char.isDigit
    let r1 := rest.dropWhile Char.isDigit
    let fp := match r1 with
      | '.' :: r => r.takeWhile Char.isDigit
      | _ => []
    let r2 := match r1 with
      | '.' :: r => r.dropWhile Char.isDigit
      | _ => r1
    let ds := ip ++ fp
    if ds.isEmpty then .notNum
    else
      match r2 with
      | [] => finishDec sgn ds fp.length 0
      | c :: r3 =>
        if c = 'e' ∨ c = 'E' then
          match parseExpDigits r3 with
          | some ex => finishDec sgn ds fp.length ex
          | none => .notNum
        else .notNum

/-- The Sejong fix-up of the loader: for a row whose region is `"세종"`,
a literal `"-"` cell in a numeric column is replaced by zero before the
numeric conversion (`df.loc[mask, ...].replace("-", 0)`). -/
def sejongFix (region cell : Option String) : Option String :=
  if region = some "세종" ∧ cell = some "-" then some "0" else cell

/-- Numeric parse of an optional cell: a missing cell is already `NaN`. -/
def cellNum (cell : Option String) : NumParse :=
  match cell with
  | none => .nan
  | some s => parseNum s

/-- The numeric class a cell reaches the conversion pipeline with, after
the Sejong fix-up. -/
def cellClass (region cell : Option String) : NumParse :=
  cellNum (sejongFix region cell)

/-- `astype(int)` truncation toward zero of the exact value `m · 10^e`
(the float-to-int cast truncates toward zero). -/
def decTrunc (m e : Int) : Int :=
  if 0 ≤ e then m * ((10 ^ e.toNat : Nat) : Int)
  else Int.tdiv m ((10 ^ (-e).toNat : Nat) : Int)

/-- The integer a cell contributes to the loaded frame when the load
succeeds: `fillna(0)` turns `NaN` (missing or coercion failure) into 0,
`astype(int)` truncates finite values toward zero.  The non-finite cases
never reach this point: on them the program's `astype(int)` raises,
which the loader models by its error branch. -/
def coerceCell (p : NumParse) : Int :=
  match p with
  | .finite m e => decTrunc m e
  | _ => 0

/-- One row of the loaded frame.  The year column is untouched by the
loader, so it stays a raw optional cell; the three numeric columns are
integers; `region_en` is the mapped display name (`none` for the `NaN`
that `Series.map` yields on a code absent from `REGION_KR2EN`). -/
structure LoadedRow where
  region : Option String
  year : Option String
  population : Int
  births : Int
  deaths : Int
  region_en : Option String
deriving DecidableEq

/-- Loading of a single raw row, mirroring the column-wise operations of
`load_population_df` on that row. -/
def loadRow (header row : List String) : LoadedRow :=
  let reg := getCell header row "지역"
  { region := reg
    year := getCell header row "연도"
    population := coerceCell (cellClass reg (getCell header row "인구"))
    births := coerceCell (cellClass reg (getCell header row "출생아수(명)"))
    deaths := coerceCell (cellClass reg (getCell header row "사망자수(명)"))
    region_en := reg.bind (fun k => List.lookup k REGION_KR2EN) }

/-- The columns whose absence makes `load_population_df` raise a
`KeyError`: the region column (the Sejong mask) and the three numeric
columns.  The year column is never accessed by the loader. -/
def requiredCols : List String := ["지역", "인구", "출생아수(명)", "사망자수(명)"]

/-- The three numeric columns converted by the loader. -/
def numCols : List String := ["인구", "출생아수(명)", "사망자수(명)"]

/-- Whether a parse outcome is one of the non-finite values that
`astype(int)` cannot convert. -/
def isInfParse (p : NumParse) : Bool :=
  match p with
  | .posInf => true
  | .negInf => true
  | _ => false

/-- Whether some numeric cell of the row, after the Sejong fix-up,
parses to ±infinity — the condition under which the program's
`astype(int)` raises. -/
def rowHasNonFinite (header row : List String) : Bool :=
  numCols.any (fun c =>
    isInfParse (cellClass (getCell header row "지역") (getCell header row c)))

/-- `load_population_df`: raises a `KeyError` when an accessed column is
missing, raises the `astype(int)` `ValueError` when a numeric cell is
non-finite after the fix-up, and otherwise transforms every row by
`loadRow`. -/
def load_population_df (t : RawTable) : Except String (List LoadedRow) :=
  if requiredCols.all (fun c => t.header.contains c) then
    if t.rows.any (rowHasNonFinite t.header) then
      .error "ValueError: cannot convert non-finite values to integer"
    else
      .ok (t.rows.map (loadRow t.header))
  else
    .error "KeyError: missing required column"

/-- One row of the loaded frame as seen by the analysis views, with all
columns at their post-load types (year an integer as in the source CSV,
numeric columns integers). -/
structure Row where
  region : String
  year : Int
  population : Int
  births : Int
  deaths : Int
deriving DecidableEq

/-- The derived `region_en` value of a view row
(`df["지역"].map(REGION_KR2EN)`). -/
def regionEn (r : Row) : Option String := List.lookup r.region REGION_KR2EN

/-- `predict_pop_2035(nat_df)`: mean of births − deaths over the last
three rows (`tail(3)`), truncated toward zero by Python `int()`
(`Int.tdiv`), extrapolated linearly to 2035 from the last row.  The
Python code raises on an empty frame (`iat[-1]` / `int(nan)`), modelled
by `none`. -/
def predict_pop_2035 (nat_df : List Row) : Option Int :=
  let recent := nat_df.drop (nat_df.length - 3)
  match nat_df.getLast?, recent.getLast? with
  | some lastRow, some lastRecent =>
    let delta := Int.tdiv ((recent.map (fun r => r.births - r.deaths)).sum)
      (recent.length : Int)
    some (lastRow.population + delta * (2035 - lastRecent.year))
  | _, _ => none

/-- The forecast formula exactly as the specification words it: take the
last 3 records (all of them when fewer exist); the mean of
births − deaths over those records, truncated to integer; multiply by
`years_left = 2035 − last_record.year`; add to `last_record.population`. -/
def forecastSpec (nat_df : List Row) : Option Int :=
  match nat_df.getLast? with
  | none => none
  | some lastRecord =>
    let lastThree := nat_df.drop (nat_df.length - 3)
    let meanDelta := Int.tdiv ((lastThree.map (fun r => r.births - r.deaths)).sum)
      (lastThree.length : Int)
    some (lastRecord.population + meanDelta * (2035 - lastRecord.year))

/-- `df["연도"].max()` — `none` on an empty frame (pandas `NaN`). -/
def maxYear (df : List Row) : Option Int := (df.map (fun r => r.year)).max?

/-- The region labels of the year-`y` slice of the frame, in row order
(the index built by `df[df["연도"] == y].set_index("지역")`). -/
def regionsAt (df : List Row) (y : Int) : List String :=
  (df.filter (fun r => r.year == y)).map (fun r => r.region)

/-- Population of a region in a given year — the value the year slice's
index holds for that label (`none` when the label is absent, pandas
`NaN` after alignment). -/
def popAt (df : List Row) (y : Int) (reg : String) : Option Int :=
  ((df.filter (fun r => r.year == y && r.region == reg)).head?).map
    (fun r => r.population)

/-- One aligned entry of the pandas `Series` subtraction: value minus
value when the label is present in both year slices, `NaN` otherwise. -/
def deltaVal (df : List Row) (lastY baseY : Int) (reg : String) : Option Int :=
  match popAt df lastY reg, popAt df baseY reg with
  | some a, some b => some (a - b)
  | _, _ => none

/-- Descending order on aligned delta entries as `sort_values(ascending=False)`
arranges them: numbers in decreasing order, `NaN` entries at the end. -/
def deltaOrd (a b : String × Option Int) : Prop :=
  match a.2, b.2 with
  | some x, some y => y ≤ x
  | none, some _ => False
  | _, none => True

instance : DecidableRel deltaOrd := fun a b => by
  unfold deltaOrd
  rcases a with ⟨_, _ | x⟩ <;> rcases b with ⟨_, _ | y⟩ <;> simp <;> infer_instance

instance : IsTotal (String × Option Int) deltaOrd :=
  ⟨fun a b => by
    unfold deltaOrd
    rcases a with ⟨_, _ | x⟩ <;> rcases b with ⟨_, _ | y⟩ <;> simp
    exact le_total y x⟩

instance : IsTrans (String × Option Int) deltaOrd :=
  ⟨fun a b c hab hbc => by
    unfold deltaOrd at *
    rcases a with ⟨_, _ | x⟩ <;> rcases b with ⟨_, _ | y⟩ <;>
      rcases c with ⟨_, _ | z⟩ <;> simp_all
    omega⟩

/-- The 5-year regional delta series of tab 3:
`(df[연도==last].set_index(지역)[인구] − df[연도==base].set_index(지역)[인구])
.drop("전국").sort_values(ascending=False)`.  Alignment produces the
union of the two region indexes with `NaN` (`none`) where a side is
missing; `drop("전국")` raises a `KeyError` when the national label is
absent from the aligned index, modelled by the `Except` error. -/
def deltaView (df : List Row) : Except String (List (String × Option Int)) :=
  let lastY := (maxYear df).getD 0
  let baseY := lastY - 4
  let idx := (regionsAt df lastY ++ regionsAt df baseY).dedup
  if "전국" ∈ idx then
    .ok (List.insertionSort deltaOrd
      ((idx.filter (fun r => r != "전국")).map (fun r => (r, deltaVal df lastY baseY r))))
  else
    .error "KeyError: 전국"

/-- `delta.head(3).index` — the top-3 rising regions of tab 3. -/
def top3Rising (df : List Row) : Except String (List String) :=
  (deltaView df).map (fun l => (l.take 3).map (fun p => p.1))

/-- `delta.tail(3).index` — the top-3 declining regions of tab 3. -/
def top3Declining (df : List Row) : Except String (List String) :=
  (deltaView df).map (fun l => (l.drop (l.length - 3)).map (fun p => p.1))

/-- Ascending year order used inside one region's group
(`sort_values(["지역", "연도"])` restricted to the group). -/
def yearLE (a b : Row) : Prop := a.year ≤ b.year

instance : DecidableRel yearLE := fun a b =>
  inferInstanceAs (Decidable (a.year ≤ b.year))

instance : IsTotal Row yearLE := ⟨fun a b => le_total a.year b.year⟩

instance : IsTrans Row yearLE := ⟨fun _ _ _ hab hbc => le_trans hab hbc⟩

/-- One region's rows in chronological order — the group that
`groupby("지역")` forms after the sort by region and year. -/
def regionRows (df : List Row) (reg : String) : List Row :=
  List.insertionSort yearLE (df.filter (fun r => r.region == reg))

/-- `groupby("지역")["인구"].diff()` within one region: each row from the
second chronological one onward, paired with its population minus the
previous row's population.  The region's first row yields `NaN` and is
dropped by `nlargest`, so it contributes no pair. -/
def regionDiffs (df : List Row) (reg : String) : List (Row × Int) :=
  let s := regionRows df reg
  (s.zip s.tail).map (fun p => (p.2, p.2.population - p.1.population))

/-- All year-over-year (row, diff) pairs after `query("지역 != '전국'")`. -/
def allDiffs (df : List Row) : List (Row × Int) :=
  (((df.map (fun r => r.region)).dedup).filter (fun r => r != "전국")).flatMap
    (regionDiffs df)

/-- Descending order on diff values used by `nlargest(100, "diff")`. -/
def diffGE (a b : Row × Int) : Prop := b.2 ≤ a.2

instance : DecidableRel diffGE := fun a b =>
  inferInstanceAs (Decidable (b.2 ≤ a.2))

instance : IsTotal (Row × Int) diffGE := ⟨fun a b => le_total b.2 a.2⟩

instance : IsTrans (Row × Int) diffGE := ⟨fun _ _ _ hab hbc => le_trans hbc hab⟩

/-- `diff_df.nlargest(100, "diff")` — the 100 largest year-over-year
differences in descending order (rows with `NaN` diff, i.e. each
region's first row, never enter the candidate list). -/
def top100Diffs (df : List Row) : List (Row × Int) :=
  (List.insertionSort diffGE (allDiffs df)).take 100

/-- The row index of the heatmap pivot after the `.loc` filter:
display names in first-encounter order, rows with an unmapped region
(`NaN` display name) dropped by `pivot_table`, then `"National"`
filtered out. -/
def heatRegions (df : List Row) : List String :=
  ((df.filterMap regionEn).dedup).filter (fun s => s != "National")

/-- Mean of a list of integers as the exact rational `pivot_table`'s
default `aggfunc="mean"` computes. -/
def meanQ (l : List Int) : ℚ := (l.sum : ℚ) / (l.length : ℚ)

/-- One cell of the heatmap pivot: mean population over the rows with
the given display name and year, `NaN` (`none`) when no row matches. -/
def heatCell (df : List Row) (re : String) (y : Int) : Option ℚ :=
  let cells := (df.filter (fun r => regionEn r == some re && r.year == y)).map
    (fun r => r.population)
  if cells.isEmpty then none else some (meanQ cells)

/-- Tab 5's heatmap pivot
`df.pivot_table(index="region_en", columns="연도", values="인구")`
followed by `.loc[index != "National"]`, as rows of (display name, cells
per year). -/
def heatPivot (df : List Row) : List (String × List (Int × Option ℚ)) :=
  (heatRegions df).map
    (fun re => (re, ((df.map (fun r => r.year)).dedup).map (fun y => (y, heatCell df re y))))

/-- The frame behind the stacked-area pivot: `df[df["지역"] != "전국"]`. -/
def areaBase (df : List Row) : List Row :=
  df.filter (fun r => r.region != "전국")

/-- Column labels of the stacked-area pivot: display names of the
non-national rows (unmapped regions are dropped by `pivot_table`). -/
def areaCols (df : List Row) : List String :=
  ((areaBase df).filterMap regionEn).dedup

/-- One cell of the stacked-area pivot: `aggfunc="sum"` over all rows of
the given year and display name, `NaN` (`none`) when no row matches. -/
def areaCell (df : List Row) (y : Int) (re : String) : Option Int :=
  let cells := ((areaBase df).filter
    (fun r => regionEn r == some re && r.year == y)).map (fun r => r.population)
  if cells.isEmpty then none else some cells.sum

/-- Tab 5's stacked-area pivot
`df[df["지역"] != "전국"].pivot_table(index="연도", columns="region_en",
values="인구", aggfunc="sum")`, as rows of (year, cells per display name). -/
def areaPivot (df : List Row) : List (Int × List (String × Option Int)) :=
  (((areaBase df).map (fun r => r.year)).dedup).map
    (fun y => (y, (areaCols df).map (fun re => (re, areaCell df y re))))

/-! ## Concrete example inputs -/

/-- The specification's forecast example: national records for years
2020–2022 with populations 100, 105, 108 and births − deaths of
+5, +4, +3. -/
def exNat : List Row :=
  [{ region := "전국", year := 2020, population := 100, births := 5, deaths := 0 },
   { region := "전국", year := 2021, population := 105, births := 4, deaths := 0 },
   { region := "전국", year := 2022, population := 108, births := 3, deaths := 0 }]

/-- A national table with only two records, for the short-history edge
case of the forecaster. -/
def exNatShort : List Row :=
  [{ region := "전국", year := 2020, population := 100, births := 5, deaths := 0 },
   { region := "전국", year := 2021, population := 105, births := 4, deaths := 0 }]

/-- The specification's delta example — regions A (2018 = 50,
2022 = 80) and B (2018 = 90, 2022 = 70) — together with the national
rows the view needs in order to be defined at all. -/
def exDelta : List Row :=
  [{ region := "A", year := 2018, population := 50, births := 0, deaths := 0 },
   { region := "A", year := 2022, population := 80, births := 0, deaths := 0 },
   { region := "B", year := 2018, population := 90, births := 0, deaths := 0 },
   { region := "B", year := 2022, population := 70, births := 0, deaths := 0 },
   { region := "전국", year := 2018, population := 140, births := 0, deaths := 0 },
   { region := "전국", year := 2022, population := 150, births := 0, deaths := 0 }]

/-- The delta example without its national rows. -/
def exNoNational : List Row :=
  [{ region := "A", year := 2018, population := 50, births := 0, deaths := 0 },
   { region := "A", year := 2022, population := 80, births := 0, deaths := 0 },
   { region := "B", year := 2018, population := 90, births := 0, deaths := 0 },
   { region := "B", year := 2022, population := 70, births := 0, deaths := 0 }]

/-- Two Seoul rows in the same year, exercising duplicate summation in
the stacked-area pivot. -/
def exDup : List Row :=
  [{ region := "서울", year := 2020, population := 10, births := 0, deaths := 0 },
   { region := "서울", year := 2020, population := 20, births := 0, deaths := 0 }]

/-- A CSV whose single row carries the numeric value `-5` in the
population column. -/
def exT1 : RawTable :=
  { header := ["지역", "연도", "인구", "출생아수(명)", "사망자수(명)"],
    rows := [["서울", "2020", "-5", "1", "2"]] }

/-- A CSV whose national-aggregate row carries the dash placeholder in
all three numeric columns. -/
def exT5 : RawTable :=
  { header := ["지역", "연도", "인구", "출생아수(명)", "사망자수(명)"],
    rows := [["전국", "2020", "-", "-", "-"]] }

/-- A CSV with the four columns the loader touches but no year column. -/
def exT6 : RawTable :=
  { header := ["지역", "인구", "출생아수(명)", "사망자수(명)"],
    rows := [["서울", "100", "1", "2"]] }

/-- The top-100 entry of the example table for region A's 2022 row. -/
def exDiffEntry : Row × Int :=
  ({ region := "A", year := 2022, population := 80, births := 0, deaths := 0 }, 30)

/-! ## Shared helper lemmas -/

/-- The only Korean region code whose display name is `"National"` is
`"전국"`: the dictionary is injective at that value. -/
theorem lookup_eq_national {k : String}
    (h : List.lookup k REGION_KR2EN = some "National") : k = "전국" := by
  simp only [REGION_KR2EN, List.lookup] at h
  repeat' split at h
  all_goals simp_all

/-- Dropping all but the last three elements keeps the last element. -/
theorem getLast?_drop_sub_three {α : Type} (l : List α) (h : l ≠ []) :
    (l.drop (l.length - 3)).getLast? = l.getLast? := by
  rw [List.getLast?_drop, if_neg]
  have : 0 < l.length := List.length_pos.mpr h
  omega

/-- Members of `l.zip l.tail` are exactly the consecutive pairs of `l`. -/
theorem mem_zip_tail {α : Type} :
    ∀ {l : List α} {a b : α}, (a, b) ∈ l.zip l.tail →
      ∃ i, l.get? i = some a ∧ l.get? (i + 1) = some b := by
  intro l
  induction l with
  | nil => simp
  | cons x t ih =>
    intro a b h
    cases t with
    | nil => simp [List.zip] at h
    | cons y t2 =>
      rcases List.mem_cons.mp h with he | hm
      · obtain ⟨h1, h2⟩ := Prod.mk.injEq .. ▸ he
        exact ⟨0, by simp_all⟩
      · obtain ⟨i, h1, h2⟩ := ih hm
        exact ⟨i + 1, h1, h2⟩

/-- A nonempty list has a last element. -/
theorem exists_getLast? {α : Type} {l : List α} (h : l ≠ []) :
    ∃ a, l.getLast? = some a := by
  rw [← Option.isSome_iff_exists, List.getLast?_isSome]; exact h

/-- Every row of a region's chronological group carries that region. -/
theorem region_of_mem_regionRows {df : List Row} {reg : String} {r : Row}
    (h : r ∈ regionRows df reg) : r.region = reg := by
  unfold regionRows at h
  rw [List.mem_insertionSort] at h
  simpa using (List.mem_filter.mp h).2

/-- A region whose population is defined in a year slice is a label of
that slice's index. -/
theorem mem_regionsAt_of_popAt {df : List Row} {y : Int} {reg : String} {p : Int}
    (h : popAt df y reg = some p) : reg ∈ regionsAt df y := by
  unfold popAt at h
  obtain ⟨r, hr, -⟩ := Option.map_eq_some'.mp h
  have hmem : r ∈ df.filter (fun r => r.year == y && r.region == reg) := by
    cases hf : df.filter (fun r => r.year == y && r.region == reg) <;> simp_all
  obtain ⟨hin, hcond⟩ := List.mem_filter.mp hmem
  simp only [Bool.and_eq_true, beq_iff_eq] at hcond
  exact List.mem_map.mpr ⟨r, List.mem_filter.mpr (by simp [hin, hcond.1]), hcond.2⟩

/-! ## Claims -/

/-- Claim C2: for every non-empty national table sorted ascending by
year, `predict_pop_2035` returns the specification's formula — the last
record's population plus the truncated mean of births − deaths over the
last three records times `2035 − last_record.year` — and on the national
records (2020, 100, +5), (2021, 105, +4), (2022, 108, +3) it returns
`108 + 4 × 13 = 160`. -/
theorem claim_C2_forecast_formula :
    (∀ nat_df : List Row, nat_df ≠ [] →
      predict_pop_2035 nat_df = forecastSpec nat_df) ∧
    predict_pop_2035 exNat = some 160 := by
  constructor
  · intro l hl
    obtain ⟨a, ha⟩ := exists_getLast? hl
    have hdrop := getLast?_drop_sub_three l hl
    simp only [predict_pop_2035, forecastSpec, hdrop, ha]
  · decide

/-- Claim C2 witness: the general formula applied to the concrete
three-record national table. -/
theorem claim_C2_forecast_formula_witness :
    predict_pop_2035 exNat = forecastSpec exNat :=
  claim_C2_forecast_formula.1 exNat (by decide)

/-- Claim C8: with fewer than three national records, the mean is taken
over however many records are available and the same extrapolation
formula applies. -/
theorem claim_C8_short_history :
    ∀ (nat_df : List Row) (lastRecord : Row),
      nat_df.getLast? = some lastRecord → nat_df.length < 3 →
      predict_pop_2035 nat_df =
        some (lastRecord.population +
          Int.tdiv ((nat_df.map (fun r => r.births - r.deaths)).sum)
            (nat_df.length : Int) * (2035 - lastRecord.year)) := by
  intro l a ha hlen
  have h0 : l.length - 3 = 0 := by omega
  simp only [predict_pop_2035, h0, List.drop_zero, ha]

/-- Claim C8 witness: two national records (2020, 100, +5) and
(2021, 105, +4) give `105 + tdiv(9, 2) × 14 = 105 + 4 × 14 = 161`. -/
theorem claim_C8_short_history_witness :
    predict_pop_2035 exNatShort = some 161 := by
  have h := claim_C8_short_history exNatShort
    { region := "전국", year := 2021, population := 105, births := 4, deaths := 0 }
    (by decide) (by decide)
  rw [h]; decide

/-- Claim C3: the 5-year delta view holds, for each region other than
the national aggregate with data in both the last and the base year,
`population(last) − population(base)`; it is sorted descending by delta;
top-3 rising is its first three entries and top-3 declining its last
three; and on the example table with regions A (2018 = 50, 2022 = 80)
and B (2018 = 90, 2022 = 70) it yields A:+30, B:−20 in order [A, B],
with A among the rising and B among the declining regions. -/
theorem claim_C3_five_year_delta :
    (∀ (df : List Row) (l : List (String × Option Int)),
      deltaView df = .ok l →
        List.Sorted deltaOrd l ∧
        (∀ reg pl pb, reg ≠ "전국" →
          popAt df ((maxYear df).getD 0) reg = some pl →
          popAt df ((maxYear df).getD 0 - 4) reg = some pb →
          (reg, some (pl - pb)) ∈ l) ∧
        top3Rising df = .ok ((l.take 3).map (fun p => p.1)) ∧
        top3Declining df = .ok ((l.drop (l.length - 3)).map (fun p => p.1))) ∧
    deltaView exDelta = .ok [("A", some 30), ("B", some (-20))] ∧
    top3Rising exDelta = .ok ["A", "B"] ∧
    top3Declining exDelta = .ok ["A", "B"] := by
  refine ⟨?_, rfl, rfl, rfl⟩
  intro df l h
  have hcopy := h
  simp only [deltaView] at h
  split at h
  case isFalse => exact absurd h (by simp)
  case isTrue hmem =>
    have hl : l = List.insertionSort deltaOrd
        ((((regionsAt df ((maxYear df).getD 0) ++
            regionsAt df ((maxYear df).getD 0 - 4)).dedup).filter
          (fun r => r != "전국")).map
          (fun r => (r, deltaVal df ((maxYear df).getD 0)
            ((maxYear df).getD 0 - 4) r))) := by
      simpa using h.symm
    refine ⟨?_, ?_, ?_, ?_⟩
    · rw [hl]; exact List.sorted_insertionSort _ _
    · intro reg pl pb hne hpl hpb
      rw [hl, List.mem_insertionSort]
      refine List.mem_map.mpr ⟨reg, List.mem_filter.mpr ⟨List.mem_dedup.mpr
        (List.mem_append.mpr (Or.inl (mem_regionsAt_of_popAt hpl))),
        by simpa using hne⟩, ?_⟩
      simp [deltaVal, hpl, hpb]
    · unfold top3Rising; rw [hcopy]; rfl
    · unfold top3Declining; rw [hcopy]; rfl

/-- Claim C3 witness: the general delta-view properties applied to the
example table — its view is sorted and contains A's delta +30. -/
theorem claim_C3_five_year_delta_witness :
    List.Sorted deltaOrd [("A", some 30), ("B", some (-20))] ∧
    ("A", some (30 : Int)) ∈ [("A", some (30 : Int)), ("B", some (-20 : Int))] := by
  have h := claim_C3_five_year_delta.1 exDelta
    [("A", some 30), ("B", some (-20))] (by rfl)
  refine ⟨h.1, ?_⟩
  have h2 := h.2.1 "A" 80 50 (by decide) (by decide) (by decide)
  exact h2

/-- Each member of a region's diff group pairs a row with its
population minus the previous chronological row's population. -/
theorem regionDiffs_spec {df : List Row} {reg : String} {x : Row × Int}
    (h : x ∈ regionDiffs df reg) :
    ∃ i prev, (regionRows df reg).get? i = some prev ∧
      (regionRows df reg).get? (i + 1) = some x.1 ∧
      x.2 = x.1.population - prev.population := by
  unfold regionDiffs at h
  obtain ⟨p, hp, hxe⟩ := List.mem_map.mp h
  obtain ⟨a, b⟩ := p
  obtain ⟨i, h1, h2⟩ := mem_zip_tail hp
  subst hxe
  exact ⟨i, a, h1, h2, rfl⟩

/-- Every candidate of the top-100 view comes from the diff group of a
non-national region. -/
theorem top100_mem_regionDiffs {df : List Row} {x : Row × Int}
    (hx : x ∈ top100Diffs df) :
    ∃ reg, reg ≠ "전국" ∧ x ∈ regionDiffs df reg := by
  have hx2 : x ∈ List.insertionSort diffGE (allDiffs df) :=
    List.Sublist.mem hx (List.take_sublist _ _)
  rw [List.mem_insertionSort] at hx2
  obtain ⟨reg, hreg, hxr⟩ := List.mem_flatMap.mp hx2
  exact ⟨reg, by simpa using (List.mem_filter.mp hreg).2, hxr⟩

/-- Claim C4: the top-100 year-over-year difference view never contains
the national-aggregate region; it is sorted descending by diff and holds
at most 100 entries; each entry's diff is its row's population minus the
previous chronological row's population within the same region (so each
region's first chronological row, whose diff is undefined, never
appears: a region contributes one fewer diff than it has rows). -/
theorem claim_C4_top100_diffs :
    ∀ df : List Row,
      (∀ x ∈ top100Diffs df, x.1.region ≠ "전국") ∧
      List.Pairwise diffGE (top100Diffs df) ∧
      (top100Diffs df).length ≤ 100 ∧
      (∀ x ∈ top100Diffs df, ∃ i prev,
        (regionRows df x.1.region).get? i = some prev ∧
        (regionRows df x.1.region).get? (i + 1) = some x.1 ∧
        x.2 = x.1.population - prev.population) ∧
      (∀ reg, (regionDiffs df reg).length = (regionRows df reg).length - 1) := by
  intro df
  refine ⟨?_, ?_, ?_, ?_, ?_⟩
  · intro x hx
    obtain ⟨reg, hne, hxr⟩ := top100_mem_regionDiffs hx
    obtain ⟨i, prev, -, h2, -⟩ := regionDiffs_spec hxr
    rw [region_of_mem_regionRows (List.get?_mem h2)]
    exact hne
  · exact List.Pairwise.sublist (List.take_sublist _ _)
      (List.sorted_insertionSort diffGE (allDiffs df))
  · exact List.length_take_le _ _
  · intro x hx
    obtain ⟨reg, -, hxr⟩ := top100_mem_regionDiffs hx
    obtain ⟨i, prev, h1, h2, h3⟩ := regionDiffs_spec hxr
    have hr : x.1.region = reg := region_of_mem_regionRows (List.get?_mem h2)
    rw [hr]
    exact ⟨i, prev, h1, h2, h3⟩
  · intro reg
    unfold regionDiffs
    rw [List.length_map, List.length_zip, List.length_tail]
    omega

/-- Claim C4 witness: the top-100 properties applied to the example
table — the entry for region A's 2022 row is not national, and the view
holds at most 100 entries. -/
theorem claim_C4_top100_diffs_witness :
    exDiffEntry.1.region ≠ "전국" ∧ (top100Diffs exDelta).length ≤ 100 := by
  have h := claim_C4_top100_diffs exDelta
  exact ⟨h.1 exDiffEntry (by decide), h.2.2.1⟩

/-- Claim C7: neither pivot carries a row or column for the national
aggregate — the heatmap's row index filters out the `"National"` label,
and the stacked-area pivot's columns come only from rows whose region is
not `"전국"`, whose display name therefore cannot be `"National"`; every
stacked-area cell is the `aggfunc="sum"` aggregate of the matching rows,
so duplicate (year, region) entries are summed, as on the concrete table
with two Seoul 2020 rows of populations 10 and 20. -/
theorem claim_C7_pivots_exclude_national :
    (∀ df : List Row,
      "National" ∉ (heatPivot df).map (fun p => p.1) ∧
      (∀ p ∈ areaPivot df, ∀ c ∈ p.2, c.1 ≠ "National") ∧
      (∀ p ∈ areaPivot df, ∀ c ∈ p.2, c.2 = areaCell df p.1 c.1)) ∧
    areaPivot exDup = [(2020, [("Seoul", some 30)])] := by
  refine ⟨?_, rfl⟩
  intro df
  refine ⟨?_, ?_, ?_⟩
  · intro hmem
    obtain ⟨pp, hp, he⟩ := List.mem_map.mp hmem
    obtain ⟨re, hre, hpe⟩ := List.mem_map.mp hp
    have hren : re = "National" := by rw [← hpe] at he; simpa using he
    rw [hren] at hre
    have := (List.mem_filter.mp hre).2
    simp at this
  · intro p hp c hc
    obtain ⟨y, -, hpe⟩ := List.mem_map.mp hp
    have hc2 : c ∈ (areaCols df).map (fun re => (re, areaCell df y re)) := by
      rw [← hpe] at hc; exact hc
    obtain ⟨re, hre, hce⟩ := List.mem_map.mp hc2
    have hc1 : c.1 = re := by rw [← hce]
    intro hnat
    rw [hc1] at hnat
    rw [hnat] at hre
    obtain ⟨r, hrmem, hren⟩ := List.mem_filterMap.mp (List.mem_dedup.mp hre)
    have hkor : r.region = "전국" := lookup_eq_national hren
    have h2 := (List.mem_filter.mp hrmem).2
    simp [hkor] at h2
  · intro p hp c hc
    obtain ⟨y, -, hpe⟩ := List.mem_map.mp hp
    have hc2 : c ∈ (areaCols df).map (fun re => (re, areaCell df y re)) := by
      rw [← hpe] at hc; exact hc
    obtain ⟨re, -, hce⟩ := List.mem_map.mp hc2
    rw [← hce, ← hpe]

/-- Claim C7 witness: the pivot properties applied to the
duplicate-Seoul table — no `"National"` heatmap row, and the Seoul
column of the stacked-area pivot is not national. -/
theorem claim_C7_pivots_exclude_national_witness :
    "National" ∉ (heatPivot exDup).map (fun p => p.1) ∧
    (("Seoul", some (30 : Int)) : String × Option Int).1 ≠ "National" := by
  have h := claim_C7_pivots_exclude_national.1 exDup
  exact ⟨h.1, h.2.1 (2020, [("Seoul", some 30)]) (by decide)
    ("Seoul", some 30) (by decide)⟩

/-- Claim C9: when no row belongs to the national-aggregate region, the
5-year delta view has no defined output — the unguarded `drop("전국")`
raises a `KeyError` instead of producing a delta sequence. -/
theorem claim_C9_missing_national :
    ∀ df : List Row, (∀ r ∈ df, r.region ≠ "전국") →
      deltaView df = .error "KeyError: 전국" := by
  intro df h
  have hnot : "전국" ∉ (regionsAt df ((maxYear df).getD 0) ++
      regionsAt df ((maxYear df).getD 0 - 4)).dedup := by
    intro hmem
    rw [List.mem_dedup, List.mem_append] at hmem
    rcases hmem with h1 | h1 <;>
    · obtain ⟨r, hr, hreg⟩ := List.mem_map.mp h1
      exact h r (List.mem_filter.mp hr).1 hreg
  simp only [deltaView, if_neg hnot]

/-- Claim C9 witness: the example table stripped of its national rows
makes the delta view fail. -/
theorem claim_C9_missing_national_witness :
    deltaView exNoNational = .error "KeyError: 전국" :=
  claim_C9_missing_national exNoNational (by decide)

/-- The load-success shape of the loader: an accepted table is exactly
the row-wise `loadRow` image of its data rows. -/
theorem load_ok_elim {t : RawTable} {lrows : List LoadedRow}
    (h : load_population_df t = .ok lrows) :
    lrows = t.rows.map (loadRow t.header) := by
  unfold load_population_df at h
  split at h
  · split at h
    · exact absurd h (by simp)
    · exact (Except.ok.injEq .. ▸ h).symm
  · exact absurd h (by simp)

/-- Value of one loaded cell: a cell that is missing or fails the
numeric parse loads as exactly `0`, and a finite integer literal
(`m · 10^e` with `e ≥ 0`) loads as its own value. -/
theorem cellValue_spec (reg oc : Option String) :
    ((cellNum oc = .notNum ∨ cellNum oc = .nan) →
      coerceCell (cellClass reg oc) = 0) ∧
    (∀ m e : Int, cellNum oc = .finite m e → 0 ≤ e →
      coerceCell (cellClass reg oc) = m * 10 ^ e.toNat) := by
  unfold cellClass sejongFix
  split
  case isTrue h =>
    obtain ⟨-, hc⟩ := h
    subst hc
    constructor
    · intro _
      decide
    · intro m e hfin
      have hdash : cellNum (some "-") = NumParse.notNum := by decide
      rw [hdash] at hfin
      exact absurd hfin (by simp)
  case isFalse h =>
    constructor
    · intro hcase
      rcases hcase with hh | hh <;> simp [coerceCell, hh]
    · intro m e hfin he
      simp [coerceCell, hfin, decTrunc, he, Nat.cast_pow]

/-- Claim C1 counterexample: the cell `"-5"` is numeric, so the loader
keeps it as the negative integer −5 — the loaded table is not
non-negative. -/
theorem claim_C1_counterexample :
    ¬ (∀ lrows : List LoadedRow, load_population_df exT1 = .ok lrows →
        ∀ lr ∈ lrows, 0 ≤ lr.population) := by
  intro h
  have h2 := h (exT1.rows.map (loadRow exT1.header)) rfl
    (loadRow exT1.header ["서울", "2020", "-5", "1", "2"]) (by decide)
  exact absurd h2 (by decide)

/-- Claim C1 (amended): every accepted CSV loads the population, births
and deaths columns to integers; every cell that is missing or whose raw
value fails the pandas numeric parse loads as exactly `0`; and a finite
integer literal whose value stays below the float64 exactness bound
`2^53` loads as its own value — so negative numeric inputs are
preserved and the columns are not guaranteed non-negative. -/
theorem claim_C1_numeric_coercion :
    ∀ (t : RawTable) (lrows : List LoadedRow),
      load_population_df t = .ok lrows →
      ∀ (i : Nat) (raw : List String) (lr : LoadedRow),
        t.rows.get? i = some raw → lrows.get? i = some lr →
        (((cellNum (getCell t.header raw "인구") = .notNum ∨
            cellNum (getCell t.header raw "인구") = .nan) → lr.population = 0) ∧
          (∀ m e : Int, cellNum (getCell t.header raw "인구") = .finite m e →
            0 ≤ e → (m * 10 ^ e.toNat).natAbs < 2 ^ 53 →
            lr.population = m * 10 ^ e.toNat)) ∧
        (((cellNum (getCell t.header raw "출생아수(명)") = .notNum ∨
            cellNum (getCell t.header raw "출생아수(명)") = .nan) → lr.births = 0) ∧
          (∀ m e : Int, cellNum (getCell t.header raw "출생아수(명)") = .finite m e →
            0 ≤ e → (m * 10 ^ e.toNat).natAbs < 2 ^ 53 →
            lr.births = m * 10 ^ e.toNat)) ∧
        (((cellNum (getCell t.header raw "사망자수(명)") = .notNum ∨
            cellNum (getCell t.header raw "사망자수(명)") = .nan) → lr.deaths = 0) ∧
          (∀ m e : Int, cellNum (getCell t.header raw "사망자수(명)") = .finite m e →
            0 ≤ e → (m * 10 ^ e.toNat).natAbs < 2 ^ 53 →
            lr.deaths = m * 10 ^ e.toNat)) := by
  intro t lrows hload i raw lr hraw hlr
  have hlr2 : lr = loadRow t.header raw := by
    rw [load_ok_elim hload, List.get?_map, hraw] at hlr
    simpa using hlr.symm
  subst hlr2
  have hpop := cellValue_spec (getCell t.header raw "지역") (getCell t.header raw "인구")
  have hbir := cellValue_spec (getCell t.header raw "지역")
    (getCell t.header raw "출생아수(명)")
  have hdea := cellValue_spec (getCell t.header raw "지역")
    (getCell t.header raw "사망자수(명)")
  exact ⟨⟨hpop.1, fun m e hf he _ => hpop.2 m e hf he⟩,
    ⟨hbir.1, fun m e hf he _ => hbir.2 m e hf he⟩,
    ⟨hdea.1, fun m e hf he _ => hdea.2 m e hf he⟩⟩

/-- Claim C1 witness: the amended claim applied to the concrete table
whose population cell is the numeric literal `"-5"`. -/
theorem claim_C1_numeric_coercion_witness :
    (loadRow exT1.header ["서울", "2020", "-5", "1", "2"]).population = -5 := by
  have h := (claim_C1_numeric_coercion exT1 (exT1.rows.map (loadRow exT1.header)) rfl 0
    ["서울", "2020", "-5", "1", "2"]
    (loadRow exT1.header ["서울", "2020", "-5", "1", "2"]) rfl rfl).1.2
    (-5) 0 (by decide) (by decide) (by decide)
  simpa using h

/-- Claim C5: the literal dash never parses to a non-finite value, so a
CSV whose national-aggregate row holds the dash in the population,
births and deaths cells loads without failure — the loader succeeds
whenever the header is complete and no numeric cell is non-finite — and
each of those dash cells becomes zero. -/
theorem claim_C5_national_dash :
    (∀ reg : Option String, isInfParse (cellClass reg (some "-")) = false) ∧
    (∀ t : RawTable, requiredCols.all (fun c => t.header.contains c) = true →
      (∀ raw ∈ t.rows, rowHasNonFinite t.header raw = false) →
      load_population_df t = .ok (t.rows.map (loadRow t.header))) ∧
    (∀ (t : RawTable) (lrows : List LoadedRow),
      load_population_df t = .ok lrows →
      ∀ (i : Nat) (raw : List String) (lr : LoadedRow),
        t.rows.get? i = some raw → lrows.get? i = some lr →
        getCell t.header raw "지역" = some "전국" →
        (getCell t.header raw "인구" = some "-" → lr.population = 0) ∧
        (getCell t.header raw "출생아수(명)" = some "-" → lr.births = 0) ∧
        (getCell t.header raw "사망자수(명)" = some "-" → lr.deaths = 0)) := by
  refine ⟨?_, ?_, ?_⟩
  · intro reg
    unfold cellClass sejongFix
    split
    · decide
    · decide
  · intro t h hfin
    have hany : t.rows.any (rowHasNonFinite t.header) = false := by
      rw [List.any_eq_false]
      intro raw hmem
      simp [hfin raw hmem]
    unfold load_population_df
    rw [if_pos h, if_neg (by simp [hany])]
  · intro t lrows hload i raw lr hraw hlr hreg
    have hlr2 : lr = loadRow t.header raw := by
      rw [load_ok_elim hload, List.get?_map, hraw] at hlr
      simpa using hlr.symm
    subst hlr2
    refine ⟨fun hc => ?_, fun hc => ?_, fun hc => ?_⟩ <;>
      simp only [loadRow, hreg, hc] <;> decide

/-- Claim C5 witness: the loader applied to the concrete national-dash
CSV leaves zero in all three numeric cells. -/
theorem claim_C5_national_dash_witness :
    (loadRow exT5.header ["전국", "2020", "-", "-", "-"]).population = 0 ∧
    (loadRow exT5.header ["전국", "2020", "-", "-", "-"]).births = 0 ∧
    (loadRow exT5.header ["전국", "2020", "-", "-", "-"]).deaths = 0 := by
  have h := claim_C5_national_dash.2.2 exT5 (exT5.rows.map (loadRow exT5.header)) rfl 0
    ["전국", "2020", "-", "-", "-"]
    (loadRow exT5.header ["전국", "2020", "-", "-", "-"]) rfl rfl (by decide)
  exact ⟨h.1 (by decide), h.2.1 (by decide), h.2.2 (by decide)⟩

/-- Claim C6 counterexample: a CSV with the region and three numeric
columns but no year column loads successfully, although the claim calls
the year column required for the load to succeed. -/
theorem claim_C6_counterexample :
    "연도" ∉ exT6.header ∧ (load_population_df exT6).isOk = true := by
  constructor
  · decide
  · rfl

/-- Claim C6 (amended): the loader fails exactly when one of the four
columns it accesses — region, population, births, deaths — is missing
from the header, or when some numeric cell parses (after the Sejong
fix-up) to a non-finite value that `astype(int)` cannot convert; the
year column is never accessed by the loader, and cells that merely fail
numeric coercion (becoming `NaN` and then `0`) never cause the load to
fail. -/
theorem claim_C6_fail_iff_missing_column :
    ∀ t : RawTable,
      (load_population_df t).isOk = true ↔
        (("지역" ∈ t.header ∧ "인구" ∈ t.header ∧
          "출생아수(명)" ∈ t.header ∧ "사망자수(명)" ∈ t.header) ∧
         ∀ raw ∈ t.rows, rowHasNonFinite t.header raw = false) := by
  intro t
  unfold load_population_df
  split
  case isTrue h =>
    simp only [requiredCols] at h
    simp at h
    split
    case isTrue h2 =>
      constructor
      · intro hfalse
        simp [Except.isOk, Except.toBool] at hfalse
      · rintro ⟨-, hall⟩
        obtain ⟨raw, hmem, hbad⟩ := List.any_eq_true.mp h2
        exact absurd (hall raw hmem) (by simp [hbad])
    case isFalse h2 =>
      constructor
      · intro _
        refine ⟨h, ?_⟩
        intro raw hmem
        by_contra hb
        exact h2 (List.any_eq_true.mpr ⟨raw, hmem, by simpa using hb⟩)
      · intro _
        simp [Except.isOk, Except.toBool]
  case isFalse h =>
    simp only [requiredCols] at h
    simp at h
    constructor
    · intro hfalse
      simp [Except.isOk, Except.toBool] at hfalse
    · rintro ⟨⟨h1, h2, h3, h4⟩, -⟩
      exact absurd h4 (h h1 h2 h3)

/-- Claim C6 witness: the amended criterion applied to the concrete
year-less table — its four accessed columns are present and its cells
are finite, so it loads. -/
theorem claim_C6_fail_iff_missing_column_witness :
    (load_population_df exT6).isOk = true :=
  (claim_C6_fail_iff_missing_column exT6).mpr (by decide)

/-- Claim C10: the loader is a pure function of the parsed byte stream —
loading the same CSV twice produces identical tables. -/
theorem claim_C10_deterministic :
    ∀ t₁ t₂ : RawTable, t₁ = t₂ →
      load_population_df t₁ = load_population_df t₂ :=
  fun _ _ h => congrArg load_population_df h

/-- Claim C10 witness: determinism at a concrete table. -/
theorem claim_C10_deterministic_witness :
    load_population_df exT5 = load_population_df exT5 :=
  claim_C10_deterministic exT5 exT5 rfl

end PopEDA
